import Mathlib

/-!
Verification of the distribution logic in `setup.py` of the intervaltree
repository: version-string resolution from the VCS describe output, the
Markdown sanitization pipeline (header chop, link removal), and the
three-tier long-description fallback of `get_rst`.

The Python code is shallowly embedded on `List Char` / `String`:
fallible code returns `Except`, the environment (environment variables,
filesystem contents, collaborator availability) is passed explicitly.
-/

set_option autoImplicit false

/-- Characters stripped by Python `str.strip()` with no argument, for the
ASCII range (space, tab, newline, vertical tab, form feed, carriage return). -/
def pyIsSpace (c : Char) : Bool :=
  c = ' ' || c = '\t' || c = '\n' || c = '\x0b' || c = '\x0c' || c = '\r'

/-- Python `s.strip()`: remove leading and trailing whitespace. -/
def pyStrip (l : List Char) : List Char :=
  ((l.dropWhile pyIsSpace).reverse.dropWhile pyIsSpace).reverse

/-- Python `s.split('-')`: split on every dash, keeping empty pieces;
`''.split('-')` is `['']`. -/
def splitOnDash : List Char → List (List Char)
  | [] => [[]]
  | c :: cs =>
    match splitOnDash cs with
    | [] => [[]]
    | r :: rs => if c = '-' then [] :: r :: rs else (c :: r) :: rs

/-- Failure kinds of version resolution (spec section 7): `ProcessError`
models the `OSError` raised by `subprocess.Popen` when the VCS collaborator
cannot run; `MalformedVersionError` models the `ValueError` raised by the
tuple unpacking `release, build, commitish = git_describe.split('-')` when
the split does not yield exactly three fields. -/
inductive VersionError where
  | ProcessError
  | MalformedVersionError
  deriving DecidableEq

/-- `target_version = '2.1.1'` (setup.py line 39). -/
def target_version : String := "2.1.1"

/-- The unpacking `release, build, commitish = git_describe.split('-')`
followed by `"{0}b{1}".format(release, build)` (setup.py lines 46-47):
succeeds exactly on three fields, else the unpacking raises. -/
def composeDev (fields : List (List Char)) : Except VersionError String :=
  match fields with
  | [release, build, _commitish] => .ok (⟨release⟩ ++ "b" ++ ⟨build⟩)
  | _ => .error .MalformedVersionError

/-- `development_version_number` (setup.py lines 43-48). The argument is the
VCS-describe collaborator's raw stdout: `none` when `subprocess.Popen`
raises because the tool cannot run, `some raw` when it produced `raw`.
The code strips the output and splits it on dashes. -/
def development_version_number (gitDescribeRaw : Option String) :
    Except VersionError String :=
  match gitDescribeRaw with
  | none => .error .ProcessError
  | some raw => composeDev (splitOnDash (pyStrip raw.data))

/-- `is_dev_version = 'PYPI' in os.environ and os.environ['PYPI'] == 'pypitest'`
(setup.py line 50), with the environment variable passed explicitly
(`none` = unset). -/
def is_dev_version (pypi : Option String) : Bool :=
  pypi = some "pypitest"

/-- Version resolution (setup.py lines 50-54): development path calls
`development_version_number`, release path returns `target_version`. -/
def resolve (pypi : Option String) (gitDescribeRaw : Option String) :
    Except VersionError String :=
  if is_dev_version pypi then development_version_number gitDescribeRaw
  else .ok target_version

/-- Failure kinds of the document pipeline (spec section 7):
`EmptyDocumentError` models the `IndexError` from `md[0]` when
`chop_markdown_header` consumes every line; `ConverterUnavailableError`
models the re-raised `ImportError` when the pandoc collaborator cannot be
loaded in `markdown2rst`. -/
inductive DocError where
  | EmptyDocumentError
  | ConverterUnavailableError
  deriving DecidableEq

/-- Python `str.splitlines()` for LF-terminated text (the repository's
documents use `\n` line terminators): split on every `\n`, discarding the
terminators; a trailing newline does not produce a final empty line;
the empty string yields no lines. -/
def splitlines : List Char → List (List Char)
  | [] => []
  | '\n' :: rest => [] :: splitlines rest
  | c :: rest =>
    match splitlines rest with
    | [] => [[c]]
    | r :: rs => (c :: r) :: rs

/-- `md[0].startswith('[![')` (setup.py line 164). -/
def startsWithBadge : List Char → Bool
  | '[' :: '!' :: '[' :: _ => true
  | _ => false

/-- The loop `while not md[0].strip() or md[0].startswith('[![')`
(setup.py lines 164-165): drop leading blank and badge lines; indexing
`md[0]` on the exhausted list raises (`EmptyDocumentError` kind). -/
def chopLoop : List (List Char) → Except DocError (List (List Char))
  | [] => .error .EmptyDocumentError
  | l :: ls =>
    if (pyStrip l).isEmpty || startsWithBadge l then chopLoop ls
    else .ok (l :: ls)

/-- `chop_markdown_header` (setup.py lines 155-167): split into lines, drop
leading blank/badge lines, rejoin with `'\n'.join(...)`. -/
def chop_markdown_header (md : String) : Except DocError String :=
  (chopLoop (splitlines md.data)).map (fun ls => ⟨List.intercalate ['\n'] ls⟩)

/-- All ways the greedy repetition `(?:[^\]]|\\\])*` can consume a prefix of
the input, given as the list of remaining suffixes in the backtracking order
of the Python regex engine: at each step prefer consuming another unit
(first the single-character alternative `[^\]]`, then the two-character
alternative `\\\]`), and stop last. The earliest element is therefore the
greediest parse. -/
def starRests : List Char → List (List Char)
  | [] => [[]]
  | c :: cs =>
    (if c = ']' then [] else starRests cs) ++
    (match c, cs with
     | '\\', ']' :: cs2 => starRests cs2
     | _, _ => []) ++
    [c :: cs]

/-- Same as `starRests` for the one-or-more repetition `(?:[^\]]|\\\])+`:
one unit followed by the starred repetition. -/
def plusRests : List Char → List (List Char)
  | [] => []
  | c :: cs =>
    (if c = ']' then [] else starRests cs) ++
    (match c, cs with
     | '\\', ']' :: cs2 => starRests cs2
     | _, _ => [])

/-- Match of the named-link pattern
`\[((?:[^\]]|\\\])+)\]\[((?:[^\]]|\\\])*)\]` (setup.py lines 173-178)
anchored at the start of the input, following the engine's
leftmost/greedy backtracking order. Returns the text of group 1 and the
suffix after the whole match. -/
def matchNamedAt (l : List Char) : Option (List Char × List Char) :=
  match l with
  | '[' :: rest =>
    List.findSome? (fun r1 =>
      match r1 with
      | ']' :: '[' :: rest2 =>
        List.findSome? (fun r2 =>
          match r2 with
          | ']' :: restEnd =>
            some (rest.take (rest.length - r1.length), restEnd)
          | _ => none) (starRests rest2)
      | _ => none) (plusRests rest)
  | _ => none

/-- Match of the inline-link pattern
`\[((?:[^\]]|\\\])+)\]\(((?:[^\]]|\\\])*)\)` (setup.py lines 181-186)
anchored at the start of the input. -/
def matchInlineAt (l : List Char) : Option (List Char × List Char) :=
  match l with
  | '[' :: rest =>
    List.findSome? (fun r1 =>
      match r1 with
      | ']' :: '(' :: rest2 =>
        List.findSome? (fun r2 =>
          match r2 with
          | ')' :: restEnd =>
            some (rest.take (rest.length - r1.length), restEnd)
          | _ => none) (starRests rest2)
      | _ => none) (plusRests rest)
  | _ => none

/-- `re.sub(pattern, '\\1', md)` for an anchored matcher: scan left to
right; at the leftmost position where the pattern matches, emit group 1 and
resume after the match; otherwise copy the character. The fuel argument
(instantiated with the input length, which every step strictly decreases)
only bounds the recursion. -/
def reSubAux (matchAt : List Char → Option (List Char × List Char)) :
    Nat → List Char → List Char
  | 0, l => l
  | _ + 1, [] => []
  | fuel + 1, c :: cs =>
    match matchAt (c :: cs) with
    | some (g1, rest) => g1 ++ reSubAux matchAt fuel rest
    | none => c :: reSubAux matchAt fuel cs

/-- The first `re.sub` of `remove_markdown_links`: named links. -/
def subNamed (l : List Char) : List Char :=
  reSubAux matchNamedAt l.length l

/-- The second `re.sub` of `remove_markdown_links`: inline URL links. -/
def subInline (l : List Char) : List Char :=
  reSubAux matchInlineAt l.length l

/-- `remove_markdown_links` (setup.py lines 170-188): substitute named
links first, then inline links, each replaced by its link text. -/
def remove_markdown_links (md : String) : String :=
  ⟨subInline (subNamed md.data)⟩

/-- `pypi_sanitize_markdown` (setup.py lines 136-141): chop the header,
then remove links. -/
def pypi_sanitize_markdown (md : String) : Except DocError String :=
  match chop_markdown_header md with
  | .error e => .error e
  | .ok m => .ok (remove_markdown_links m)

/-- `pypi_prepare_rst` (setup.py lines 144-152): prepend the fixed
provenance notice and a blank line. -/
def pypi_prepare_rst (rst : String) : String :=
  ".. This file is automatically generated by setup.py from README.md and CHANGELOG.md.\n\n"
    ++ rst

/-- Modelled from the spec: the ambient state `get_rst` inspects. The
booleans are the `os.path` checks of setup.py line 79 and 82 and the
availability of the `pandoc` import (setup.py lines 121-124); the string
fields are the raw contents the file-read helper returns for each document
(the helper itself, `read_file` from the repository's `utils` package, is
not under `src/`; per spec section 1 plain file read helpers are opaque
collaborators returning the file's text). `convert` is the opaque
Markdown-to-RST collaborator (spec section 4.3). -/
structure Env where
  isdir_pyandoc : Bool
  islink_pandoc : Bool
  isfile_readme_rst : Bool
  readme_rst : String
  readme_md : String
  changelog_md : String
  pandoc_available : Bool
  convert : String → String

/-- `markdown2rst` (setup.py lines 118-132): if the pandoc import fails the
`ImportError` is re-raised (`ConverterUnavailableError` kind); otherwise
the collaborator converts the Markdown. -/
def markdown2rst (env : Env) (md : String) : Except DocError String :=
  if env.pandoc_available then .ok (env.convert md)
  else .error .ConverterUnavailableError

/-- `generate_rst` (setup.py lines 97-115): sanitize and convert the
README, prepend the provenance notice, sanitize and convert the CHANGELOG,
and join them with a newline. The `README.rst` write (or removal) on lines
110-113 is a filesystem side effect with no bearing on the returned text
and is not modelled. -/
def generate_rst (env : Env) : Except DocError String :=
  match pypi_sanitize_markdown env.readme_md with
  | .error e => .error e
  | .ok md =>
    match markdown2rst env md with
    | .error e => .error e
    | .ok rst0 =>
      match pypi_sanitize_markdown env.changelog_md with
      | .error e => .error e
      | .ok changes_md =>
        match markdown2rst env changes_md with
        | .error e => .error e
        | .ok changes_rst => .ok (pypi_prepare_rst rst0 ++ "\n" ++ changes_rst)

/-- `get_rst` (setup.py lines 78-93): the three-tier policy. The second
component counts `warn` calls (only the third tier warns; `print` calls
are informational). -/
def get_rst (env : Env) : Except DocError String × Nat :=
  if env.isdir_pyandoc && env.islink_pandoc then
    (generate_rst env, 0)
  else if env.isfile_readme_rst then
    (.ok env.readme_rst, 0)
  else
    (.ok (env.readme_md ++ "\n" ++ env.changelog_md), 1)

/-- `leadsWith pat l`: the pattern list is an initial segment of `l`.
Claim vocabulary for "a given occurrence appears at a position". -/
def leadsWith : List Char → List Char → Bool
  | [], _ => true
  | _ :: _, [] => false
  | p :: ps, c :: cs => p = c && leadsWith ps cs

/-- `containsSeg pat l`: the pattern list occurs contiguously somewhere in
`l`. Claim vocabulary for "the text still contains the occurrence". -/
def containsSeg (pat : List Char) : List Char → Bool
  | [] => pat.isEmpty
  | c :: cs => leadsWith pat (c :: cs) || containsSeg pat cs

/-- Decidable form of "the input contains no occurrence of either link
pattern": neither matcher succeeds at any suffix of the input. -/
def noLinkMatches (md : String) : Bool :=
  (List.range (md.data.length + 1)).all (fun n =>
    (matchNamedAt (md.data.drop n)).isNone &&
    (matchInlineAt (md.data.drop n)).isNone)

/-- A concrete state for the raw-fallback tier: no converter directory, no
`README.rst`. -/
def envRawFallback : Env where
  isdir_pyandoc := false
  islink_pandoc := true
  isfile_readme_rst := false
  readme_rst := ""
  readme_md := "# intervaltree"
  changelog_md := "## Change log"
  pandoc_available := true
  convert := fun s => s

/-- A concrete state in which the tier-1 filesystem condition holds but the
pandoc import fails; a `README.rst` is even present on disk. -/
def envConverterDown : Env where
  isdir_pyandoc := true
  islink_pandoc := true
  isfile_readme_rst := true
  readme_rst := "stale rst"
  readme_md := "hello"
  changelog_md := "world"
  pandoc_available := false
  convert := fun s => s

/-- A concrete tier-1 state with the converter unavailable and no
`README.rst` on disk. -/
def envConverterDownNoRst : Env where
  isdir_pyandoc := true
  islink_pandoc := true
  isfile_readme_rst := false
  readme_rst := ""
  readme_md := "hello"
  changelog_md := "world"
  pandoc_available := false
  convert := fun s => s

/-- The tuple unpacking fails on any field list that is not exactly three
long. -/
theorem composeDev_not_three (fields : List (List Char)) (h : fields.length ≠ 3) :
    composeDev fields = .error VersionError.MalformedVersionError := by
  match fields with
  | [] => rfl
  | [_] => rfl
  | [_, _] => rfl
  | [a, b, c] => exact absurd rfl h
  | _ :: _ :: _ :: _ :: _ => rfl

/-- The chop loop errors when every line of the input is blank. -/
theorem chopLoop_all_blank (ls : List (List Char))
    (h : ∀ l ∈ ls, pyStrip l = []) :
    chopLoop ls = .error DocError.EmptyDocumentError := by
  induction ls with
  | nil => rfl
  | cons l ls ih =>
    have h0 : (pyStrip l).isEmpty = true := by
      simp [h l (List.mem_cons_self l ls)]
    simp only [chopLoop, h0, Bool.true_or, if_true]
    exact ih (fun x hx => h x (List.mem_cons_of_mem l hx))

/-- A substitution pass leaves the input unchanged when its matcher fails
at every suffix. -/
theorem reSubAux_id (matchAt : List Char → Option (List Char × List Char)) :
    ∀ (fuel : Nat) (l : List Char), (∀ n : Nat, matchAt (l.drop n) = none) →
    reSubAux matchAt fuel l = l := by
  intro fuel
  induction fuel with
  | zero => intro l _; rfl
  | succ fuel ih =>
    intro l h
    cases l with
    | nil => rfl
    | cons c cs =>
      have h0 : matchAt (c :: cs) = none := h 0
      simp only [reSubAux, h0]
      exact congrArg (c :: ·) (ih cs (fun n => h (n + 1)))

/-- `noLinkMatches` gives failure of the named matcher at every suffix. -/
theorem noLinkMatches_named (md : String) (hb : noLinkMatches md = true)
    (n : Nat) : matchNamedAt (md.data.drop n) = none := by
  by_cases hn : n < md.data.length + 1
  · have h1 := hb
    simp only [noLinkMatches, List.all_eq_true, List.mem_range,
      Bool.and_eq_true, Option.isNone_iff_eq_none] at h1
    exact (h1 n hn).1
  · rw [List.drop_eq_nil_of_le (by omega)]
    rfl

/-- `noLinkMatches` gives failure of the inline matcher at every suffix. -/
theorem noLinkMatches_inline (md : String) (hb : noLinkMatches md = true)
    (n : Nat) : matchInlineAt (md.data.drop n) = none := by
  by_cases hn : n < md.data.length + 1
  · have h1 := hb
    simp only [noLinkMatches, List.all_eq_true, List.mem_range,
      Bool.and_eq_true, Option.isNone_iff_eq_none] at h1
    exact (h1 n hn).2
  · rw [List.drop_eq_nil_of_le (by omega)]
    rfl

/-- C2: in development mode (environment variable `PYPI` set to
`pypitest`), when the describe output splits on dashes into exactly three
fields `release`, `build`, `commitish`, version resolution returns
`release ++ "b" ++ build`; at `"1.2.3-4-gabc1234"` this is `"1.2.3b4"`. -/
theorem resolve_dev_three_fields (raw release build commitish : String)
    (h : splitOnDash (pyStrip raw.data) =
      [release.data, build.data, commitish.data]) :
    resolve (some "pypitest") (some raw) = .ok (release ++ "b" ++ build) := by
  have e : resolve (some "pypitest") (some raw) =
      composeDev (splitOnDash (pyStrip raw.data)) := rfl
  rw [e, h]
  rfl

/-- Witness for C2 at the spec's concrete descriptor. -/
theorem resolve_dev_three_fields_witness :
    resolve (some "pypitest") (some "1.2.3-4-gabc1234") = .ok "1.2.3b4" :=
  resolve_dev_three_fields "1.2.3-4-gabc1234" "1.2.3" "4" "gabc1234" (by decide)

/-- C3: in development mode, when the describe output does not split on
dashes into exactly three fields, version resolution fails with the
`MalformedVersionError` kind. -/
theorem resolve_dev_malformed (raw : String)
    (h : (splitOnDash (pyStrip raw.data)).length ≠ 3) :
    resolve (some "pypitest") (some raw) =
      .error VersionError.MalformedVersionError := by
  have e : resolve (some "pypitest") (some raw) =
      composeDev (splitOnDash (pyStrip raw.data)) := rfl
  rw [e]
  exact composeDev_not_three _ h

/-- Witness for C3 at a two-field descriptor. -/
theorem resolve_dev_malformed_witness :
    resolve (some "pypitest") (some "1.2.3-4") =
      .error VersionError.MalformedVersionError :=
  resolve_dev_malformed "1.2.3-4" (by decide)

/-- C4 counterexample: on empty describe output the code fails with the
`MalformedVersionError` kind (the split of the empty string yields a single
field and the three-way unpacking raises), not the `ProcessError` kind the
claim requires, and the two kinds are distinct. -/
theorem resolve_empty_output_counterexample :
    resolve (some "pypitest") (some "") =
      .error VersionError.MalformedVersionError ∧
    VersionError.MalformedVersionError ≠ VersionError.ProcessError :=
  ⟨rfl, by decide⟩

/-- C4 amended: a collaborator that cannot run fails with the
`ProcessError` kind, but empty collaborator output fails with the
`MalformedVersionError` kind (splitting the stripped empty output yields
one field, not three). -/
theorem resolve_failure_kinds :
    resolve (some "pypitest") none = .error VersionError.ProcessError ∧
    resolve (some "pypitest") (some "") =
      .error VersionError.MalformedVersionError :=
  ⟨rfl, rfl⟩

/-- C5 counterexample: on the spec's input, `chop_markdown_header` does not
return the claimed string with a trailing newline. -/
theorem chop_header_trailing_newline_counterexample :
    chop_markdown_header "\n\n[![build]]\nReal content\n" ≠
      Except.ok "Real content\n" := by
  intro h
  have e : chop_markdown_header "\n\n[![build]]\nReal content\n" =
      Except.ok "Real content" := rfl
  rw [e] at h
  exact absurd (Except.ok.inj h) (by decide)

/-- C5 amended: on input `"\n\n[![build]]\nReal content\n"` the leading
blank lines and the badge line are removed and the first real line is
retained, but without the trailing newline: `str.splitlines` discards the
line terminators and the final join does not restore a trailing one. -/
theorem chop_header_example :
    chop_markdown_header "\n\n[![build]]\nReal content\n" =
      Except.ok "Real content" := rfl

/-- C6: on an input all of whose lines are empty or whitespace-only, every
line is consumed and `chop_markdown_header` fails with the
`EmptyDocumentError` kind. -/
theorem chop_header_all_blank (md : String)
    (h : ∀ l ∈ splitlines md.data, pyStrip l = []) :
    chop_markdown_header md = .error DocError.EmptyDocumentError := by
  have hc := chopLoop_all_blank (splitlines md.data) h
  show (chopLoop (splitlines md.data)).map _ = _
  rw [hc]
  rfl

/-- Witness for C6 at a whitespace-only document. -/
theorem chop_header_all_blank_witness :
    chop_markdown_header " \n\t\n" = .error DocError.EmptyDocumentError :=
  chop_header_all_blank " \n\t\n" (by decide)

/-- C7: `remove_markdown_links` maps `[hello][world]` to `hello`,
`[hello][]` to `hello` (empty reference allowed), and
`[hello](http://example.com)` to `hello`. -/
theorem remove_links_examples :
    remove_markdown_links "[hello][world]" = "hello" ∧
    remove_markdown_links "[hello][]" = "hello" ∧
    remove_markdown_links "[hello](http://example.com)" = "hello" :=
  ⟨rfl, rfl, rfl⟩

/-- C8: on a string in which neither link pattern matches at any position,
`remove_markdown_links` is the identity. -/
theorem remove_links_noop (md : String) (h : noLinkMatches md = true) :
    remove_markdown_links md = md := by
  have e1 : subNamed md.data = md.data :=
    reSubAux_id matchNamedAt md.data.length md.data (noLinkMatches_named md h)
  show String.mk (subInline (subNamed md.data)) = md
  rw [e1]
  have e2 : subInline md.data = md.data :=
    reSubAux_id matchInlineAt md.data.length md.data (noLinkMatches_inline md h)
  rw [e2]

/-- Witness for C8 on a link-free string. -/
theorem remove_links_noop_witness :
    remove_markdown_links "plain [text] and (url), no links" =
      "plain [text] and (url), no links" :=
  remove_links_noop "plain [text] and (url), no links" (by decide)

/-- C1: when the tier-1 regeneration condition does not hold and no
`README.rst` exists, `get_rst` returns the raw README Markdown, a single
newline, and the raw CHANGELOG Markdown, unsanitized and unconverted, and
emits exactly one warning. -/
theorem get_rst_raw_fallback (env : Env)
    (h1 : (env.isdir_pyandoc && env.islink_pandoc) = false)
    (h2 : env.isfile_readme_rst = false) :
    get_rst env = (.ok (env.readme_md ++ "\n" ++ env.changelog_md), 1) := by
  simp [get_rst, h1, h2]

/-- Witness for C1 at a concrete filesystem state. -/
theorem get_rst_raw_fallback_witness :
    get_rst envRawFallback = (.ok "# intervaltree\n## Change log", 1) :=
  get_rst_raw_fallback envRawFallback rfl rfl

/-- C9 counterexample: in a concrete state where the tier-1 condition holds
(and a `README.rst` is even available on disk) but the converter cannot be
loaded, `get_rst` returns the `ConverterUnavailableError` failure instead
of falling back to tier 2 or 3 — the converter-unavailability failure does
propagate to the caller. -/
theorem get_rst_converter_counterexample :
    get_rst envConverterDown =
      (.error DocError.ConverterUnavailableError, 0) := rfl

/-- C9 amended: converter unavailability is avoided only by the up-front
filesystem check that selects the tier; when the tier-1 condition holds and
the pandoc import fails (with the README sanitizing cleanly, so conversion
is actually reached), `get_rst` propagates `ConverterUnavailableError`
rather than recovering by falling back to tier 2 or 3. -/
theorem get_rst_converter_propagates (env : Env)
    (h1 : (env.isdir_pyandoc && env.islink_pandoc) = true)
    (h2 : env.pandoc_available = false)
    (h3 : ∃ m, pypi_sanitize_markdown env.readme_md = Except.ok m) :
    get_rst env = (.error DocError.ConverterUnavailableError, 0) := by
  obtain ⟨m, hm⟩ := h3
  simp [get_rst, h1, generate_rst, hm, markdown2rst, h2]

/-- Witness for C9 at a concrete tier-1 state without a `README.rst`. -/
theorem get_rst_converter_propagates_witness :
    get_rst envConverterDownNoRst =
      (.error DocError.ConverterUnavailableError, 0) :=
  get_rst_converter_propagates envConverterDownNoRst rfl rfl ⟨"hello", rfl⟩

/-- C10 counterexample: occurrences with empty link text are not always
left unchanged. The input `[a][][b]` contains the empty-text occurrence
`[][b]`, yet `remove_markdown_links` rewrites the whole input to `a[b]`:
the empty bracket pair is consumed as the empty reference part of the
preceding match `[a][]`, and the occurrence no longer appears in the
output. -/
theorem remove_links_empty_text_counterexample :
    containsSeg "[][b]".data "[a][][b]".data = true ∧
    remove_markdown_links "[a][][b]" = "a[b]" ∧
    containsSeg "[][b]".data "a[b]".data = false :=
  ⟨rfl, rfl, rfl⟩

/-- C10 amended: in both link-removal rewrites the link-text group must be
non-empty — neither pattern matches at any position where the text group
would be empty, that is, at any suffix beginning `[]` — so inputs that are
a lone empty-text occurrence such as `[][ref]` or `[](url)` are left
unchanged while an empty reference part as in `[text][]` is rewritten;
but inside a larger string an empty bracket pair can still be consumed as
the reference part of an adjacent preceding occurrence, so empty-text
occurrences are not always preserved. -/
theorem remove_links_no_empty_text_match :
    (∀ rest : List Char, matchNamedAt ('[' :: ']' :: rest) = none) ∧
    (∀ rest : List Char, matchInlineAt ('[' :: ']' :: rest) = none) ∧
    remove_markdown_links "[][ref]" = "[][ref]" ∧
    remove_markdown_links "[](http://example.com)" = "[](http://example.com)" ∧
    remove_markdown_links "[text][]" = "text" :=
  ⟨fun _ => rfl, fun _ => rfl, rfl, rfl, rfl⟩
